import Mathlib

/-!
Shallow embedding of the top-down concrete stock model
(`concrete-top-down.py`) and the spatial allocation module
(`concrete_stock_spatial.py`).

Time series (pandas DataFrames keyed by an integer `year` column) are
embedded as lists of rows; pandas Series over spatial units are embedded
as functions `Fin n → ℝ`; lookups by label (`.loc`, `find first match`)
are embedded with `List.find?`; the float arithmetic of the scripts is
idealised over the real numbers, with `scipy.stats.norm.cdf` embedded as
the cumulative distribution function of the Gaussian measure.
-/

noncomputable section

/-- The four building types of the model (`building_types` lists in the
source). -/
inductive BType where
  | residential
  | commercial
  | institutional
  | industrial
deriving DecidableEq

/-- The list `['residential', 'commercial', 'institutional', 'industrial']`
used by the stock-calculation loops. -/
def BTypes : List BType :=
  [BType.residential, BType.commercial, BType.institutional, BType.industrial]

/-- A `{'mean': m, 'std': s}` lifetime-parameter dictionary. -/
structure LifeParams where
  mean : ℝ
  std : ℝ

/-- The `LIFETIMES` configuration table of `concrete-top-down.py`. -/
def LIFETIMES : BType → LifeParams
  | BType.residential => ⟨70, 20⟩
  | BType.commercial => ⟨60, 15⟩
  | BType.institutional => ⟨75, 20⟩
  | BType.industrial => ⟨50, 15⟩

/-- The constant `BUILDING_FRACTION = 0.55` from `concrete-top-down.py`. -/
def BUILDING_FRACTION : ℝ := 0.55

/-- The constant `CONCRETE_TO_CEMENT_RATIO = 5.5` from `concrete-top-down.py`. -/
def CONCRETE_TO_CEMENT_RATIO : ℝ := 5.5

/-- Embedding of `scipy.stats.norm.cdf(x, loc, scale)`: the cumulative distribution
function of a normal distribution with mean `loc` and standard deviation
`scale` (variance `scale ^ 2`). -/
def normCdf (x loc scale : ℝ) : ℝ :=
  ProbabilityTheory.cdf (ProbabilityTheory.gaussianReal loc ((scale ^ 2).toNNReal)) x

/-- Embedding of `survival_function(age, lifetime_params)` from `concrete-top-down.py`:
`max(0, 1 - norm.cdf(age, loc=mean, scale=std))`. -/
def survival_function (age : ℝ) (lifetime_params : LifeParams) : ℝ :=
  max 0 (1 - normCdf age lifetime_params.mean lifetime_params.std)

/-- The list `range(start, current_year + 1)` over integers. -/
def rangeInt (lo hi : ℤ) : List ℤ :=
  (List.range (hi + 1 - lo).toNat).map (fun (i : ℕ) => lo + (i : ℤ))

/-- Embedding of `calculate_survival_matrix(current_year, start_year, lifetimes)`:
one row per `year_built` in `range(start_year, current_year + 1)`, holding
the survival probability of each building type at age
`current_year - year_built`. -/
def calculate_survival_matrix (current_year start_year : ℤ)
    (lifetimes : BType → LifeParams) : List (ℤ × (BType → ℝ)) :=
  (rangeInt start_year current_year).map
    (fun year_built =>
      (year_built,
        fun building_type =>
          survival_function ((current_year - year_built : ℤ) : ℝ)
            (lifetimes building_type)))

/-- Lookup `.loc[year, btype]` on the survival matrix: value of the first row
whose `year_built` index equals `y`. -/
def matLookup (m : List (ℤ × (BType → ℝ))) (y : ℤ) (b : BType) : ℝ :=
  ((m.find? (fun p => p.1 = y)).map (fun p => p.2 b)).getD 0

/-- One row of the merged inflow DataFrame, restricted to the columns the
stock calculations read: the `year` and the four `{btype}_concrete_mt`
columns. -/
structure InflowRow where
  year : ℤ
  inflow : BType → ℝ

/-- Embedding of the row lookup
`inflows.loc[inflows['year'] == y, f'{btype}_concrete_mt'].values[0]`:
the inflow entry of the first row whose year is `y` (the scripts only
evaluate this when such a row exists). -/
def lookupInflow (inflows : List InflowRow) (y : ℤ) (b : BType) : ℝ :=
  ((inflows.find? (fun r => r.year = y)).map (fun r => r.inflow b)).getD 0

/-- The per-building-type loop body of
`calculate_stock(inflows, survival_matrix, current_year)`:
`stock = 0; for year in inflows['year']: if year in survival_matrix.index:
stock += inflow * survival`. -/
def calculate_stock (inflows : List InflowRow)
    (survival_matrix : List (ℤ × (BType → ℝ))) (current_year : ℤ)
    (b : BType) : ℝ :=
  inflows.foldl
    (fun acc r =>
      if r.year ∈ survival_matrix.map Prod.fst then
        acc + lookupInflow inflows r.year b * matLookup survival_matrix r.year b
      else acc) 0

/-- The `'total'` entry of the dictionary returned by `calculate_stock`. -/
def calculate_stock_total (inflows : List InflowRow)
    (survival_matrix : List (ℤ × (BType → ℝ))) (current_year : ℤ) : ℝ :=
  (BTypes.map (calculate_stock inflows survival_matrix current_year)).sum

/-- The inner loop of `calculate_stock_timeseries` for one analysis year
and one building type: contributions of every row with
`built_year <= year`, with the survival probability recomputed from
`LIFETIMES` at age `year - built_year`. -/
def stockInYear (inflows : List InflowRow) (y : ℤ) (b : BType) : ℝ :=
  inflows.foldl
    (fun acc r =>
      if r.year ≤ y then
        acc + lookupInflow inflows r.year b
          * survival_function ((y - r.year : ℤ) : ℝ) (LIFETIMES b)
      else acc) 0

/-- One row of the DataFrame returned by `calculate_stock_timeseries`. -/
structure StockRow where
  year : ℤ
  stock : BType → ℝ
  total : ℝ

/-- The `year_stocks` record built for one analysis year. -/
def yearStocks (inflows : List InflowRow) (y : ℤ) : StockRow :=
  { year := y
    stock := stockInYear inflows y
    total := (BTypes.map (stockInYear inflows y)).sum }

/-- Embedding of `calculate_stock_timeseries(inflows, survival_matrix, start_year,
end_year)`: one `year_stocks` row per year in
`range(start_year, end_year + 1)`.  The `survival_matrix` argument is
accepted but, as in the source, never read: survival probabilities are
recomputed per year from `LIFETIMES`. -/
def calculate_stock_timeseries (inflows : List InflowRow)
    (survival_matrix : List (ℤ × (BType → ℝ)))
    (start_year end_year : ℤ) : List StockRow :=
  (rangeInt start_year end_year).map (yearStocks inflows)

/-- One row of the USGS cement table: `year`, `production_mt`. -/
structure CementRow where
  year : ℤ
  production_mt : ℝ

/-- One row of the construction-spending table: `year` and the four
`{btype}_fraction` columns. -/
structure SpendRow where
  year : ℤ
  frac : BType → ℝ

/-- One row of the DataFrame produced by `calculate_concrete_inflows`,
with its derived columns. -/
structure MergedRow where
  year : ℤ
  production_mt : ℝ
  frac : BType → ℝ
  concrete_available_mt : ℝ
  concrete_to_buildings_mt : ℝ
  inflow : BType → ℝ

/-- Embedding of `calculate_concrete_inflows(cement_data, spending_data)`: inner merge
on `year` (under distinct years: each cement row is joined with the first
spending row of the same year, rows without a partner are dropped),
followed by the column computations
`concrete_available_mt = production_mt * CONCRETE_TO_CEMENT_RATIO`,
`concrete_to_buildings_mt = concrete_available_mt * BUILDING_FRACTION`,
`{btype}_concrete_mt = concrete_to_buildings_mt * {btype}_fraction`. -/
def calculate_concrete_inflows (cement_data : List CementRow)
    (spending_data : List SpendRow) : List MergedRow :=
  cement_data.filterMap
    (fun c =>
      (spending_data.find? (fun s => s.year = c.year)).map
        (fun s =>
          let concrete_available_mt := c.production_mt * CONCRETE_TO_CEMENT_RATIO
          let concrete_to_buildings_mt := concrete_available_mt * BUILDING_FRACTION
          { year := c.year
            production_mt := c.production_mt
            frac := s.frac
            concrete_available_mt := concrete_available_mt
            concrete_to_buildings_mt := concrete_to_buildings_mt
            inflow := fun b => concrete_to_buildings_mt * s.frac b }))

/-- The `SpatialAllocator` class of `concrete_stock_spatial.py`: its
constructor stores the national stock and the list of spatial units. -/
structure SpatialAllocator where
  national_stock : ℝ
  spatial_units : List String

/-- The derived field `self.n_units = len(spatial_units)`. -/
def SpatialAllocator.n_units (A : SpatialAllocator) : ℕ :=
  A.spatial_units.length

/-- Method `allocate_by_population`: `national_stock * population / population.sum()`. -/
def SpatialAllocator.allocate_by_population {n : ℕ} (A : SpatialAllocator)
    (population : Fin n → ℝ) : Fin n → ℝ :=
  let allocation_factor : Fin n → ℝ := fun i => population i / ∑ j, population j
  fun i => A.national_stock * allocation_factor i

/-- Method `allocate_by_gdp`: `national_stock * gdp / gdp.sum()`. -/
def SpatialAllocator.allocate_by_gdp {n : ℕ} (A : SpatialAllocator)
    (gdp : Fin n → ℝ) : Fin n → ℝ :=
  let allocation_factor : Fin n → ℝ := fun i => gdp i / ∑ j, gdp j
  fun i => A.national_stock * allocation_factor i

/-- Method `allocate_by_floor_area`: `national_stock * floor_area / floor_area.sum()`. -/
def SpatialAllocator.allocate_by_floor_area {n : ℕ} (A : SpatialAllocator)
    (floor_area : Fin n → ℝ) : Fin n → ℝ :=
  let allocation_factor : Fin n → ℝ := fun i => floor_area i / ∑ j, floor_area j
  fun i => A.national_stock * allocation_factor i

/-- Method `allocate_by_construction_spending`: cumulative spending per unit
(sum of the time-series rows), then proportional allocation. -/
def SpatialAllocator.allocate_by_construction_spending {n : ℕ}
    (A : SpatialAllocator) (spending_ts : List (Fin n → ℝ)) : Fin n → ℝ :=
  let cumulative_spending : Fin n → ℝ := fun i => (spending_ts.map (fun row => row i)).sum
  let allocation_factor : Fin n → ℝ :=
    fun i => cumulative_spending i / ∑ j, cumulative_spending j
  fun i => A.national_stock * allocation_factor i

/-- Method `allocate_by_nighttime_lights`: `national_stock * ntl / ntl.sum()`. -/
def SpatialAllocator.allocate_by_nighttime_lights {n : ℕ} (A : SpatialAllocator)
    (ntl : Fin n → ℝ) : Fin n → ℝ :=
  let allocation_factor : Fin n → ℝ := fun i => ntl i / ∑ j, ntl j
  fun i => A.national_stock * allocation_factor i

/-- The two ways `allocate_hybrid` can raise: the explicit
`assert abs(sum(weights.values()) - 1.0) < 0.001` and the
`list(proxy_data.keys())[0]` lookup on an empty keyword-argument
dictionary. -/
inductive HybridError where
  | assertionError
  | indexError
deriving DecidableEq

/-- Method `allocate_hybrid(weights, **proxy_data)`: after the weight assertion,
a zero series on the index of the first proxy is accumulated with
`weight * national_stock * proxy / proxy.sum()` for every weight whose
proxy name is present in `proxy_data`; weights on absent names are
silently skipped. -/
def SpatialAllocator.allocate_hybrid {n : ℕ} (A : SpatialAllocator)
    (weights : List (String × ℝ)) (proxy_data : List (String × (Fin n → ℝ))) :
    Except HybridError (Fin n → ℝ) :=
  if |(weights.map Prod.snd).sum - 1.0| < 0.001 then
    match proxy_data with
    | [] => Except.error HybridError.indexError
    | _ :: _ =>
      Except.ok (fun i =>
        (weights.map (fun w =>
          ((proxy_data.find? (fun p => p.1 = w.1)).map
            (fun p => w.2 * A.national_stock * (p.2 i / ∑ j, p.2 j))).getD
            0)).sum)
  else Except.error HybridError.assertionError

/-- Method `allocate_with_building_types(building_type_fractions, type_intensities)`:
weighted intensity score per unit over the columns present in the
fractions table, then proportional allocation by score. -/
def SpatialAllocator.allocate_with_building_types {n : ℕ} (A : SpatialAllocator)
    (fraction_columns : List String) (building_type_fractions : String → Fin n → ℝ)
    (type_intensities : List (String × ℝ)) : Fin n → ℝ :=
  let intensity_scores : Fin n → ℝ := fun i =>
    (type_intensities.map (fun t =>
      if t.1 ∈ fraction_columns then building_type_fractions t.1 i * t.2 else 0)).sum
  let allocation_factor : Fin n → ℝ :=
    fun i => intensity_scores i / ∑ j, intensity_scores j
  fun i => A.national_stock * allocation_factor i

/-- State-passing reading of `allocate_by_population`: the method body
binds a local, reads `self.national_stock`, and assigns no attribute, so
the allocator state it finishes with is the one it started from. -/
def SpatialAllocator.allocate_by_population_run {n : ℕ} (A : SpatialAllocator)
    (population : Fin n → ℝ) : SpatialAllocator × (Fin n → ℝ) :=
  let allocation_factor : Fin n → ℝ := fun i => population i / ∑ j, population j
  (A, fun i => A.national_stock * allocation_factor i)

/-- State-passing reading of `allocate_by_gdp`. -/
def SpatialAllocator.allocate_by_gdp_run {n : ℕ} (A : SpatialAllocator)
    (gdp : Fin n → ℝ) : SpatialAllocator × (Fin n → ℝ) :=
  let allocation_factor : Fin n → ℝ := fun i => gdp i / ∑ j, gdp j
  (A, fun i => A.national_stock * allocation_factor i)

/-- State-passing reading of `allocate_by_floor_area`. -/
def SpatialAllocator.allocate_by_floor_area_run {n : ℕ} (A : SpatialAllocator)
    (floor_area : Fin n → ℝ) : SpatialAllocator × (Fin n → ℝ) :=
  let allocation_factor : Fin n → ℝ := fun i => floor_area i / ∑ j, floor_area j
  (A, fun i => A.national_stock * allocation_factor i)

/-- State-passing reading of `allocate_by_construction_spending`. -/
def SpatialAllocator.allocate_by_construction_spending_run {n : ℕ}
    (A : SpatialAllocator) (spending_ts : List (Fin n → ℝ)) :
    SpatialAllocator × (Fin n → ℝ) :=
  (A, A.allocate_by_construction_spending spending_ts)

/-- State-passing reading of `allocate_by_nighttime_lights`. -/
def SpatialAllocator.allocate_by_nighttime_lights_run {n : ℕ} (A : SpatialAllocator)
    (ntl : Fin n → ℝ) : SpatialAllocator × (Fin n → ℝ) :=
  let allocation_factor : Fin n → ℝ := fun i => ntl i / ∑ j, ntl j
  (A, fun i => A.national_stock * allocation_factor i)

/-- State-passing reading of `allocate_hybrid`. -/
def SpatialAllocator.allocate_hybrid_run {n : ℕ} (A : SpatialAllocator)
    (weights : List (String × ℝ)) (proxy_data : List (String × (Fin n → ℝ))) :
    SpatialAllocator × Except HybridError (Fin n → ℝ) :=
  (A, A.allocate_hybrid weights proxy_data)

/-- State-passing reading of `allocate_with_building_types`. -/
def SpatialAllocator.allocate_with_building_types_run {n : ℕ} (A : SpatialAllocator)
    (fraction_columns : List String) (building_type_fractions : String → Fin n → ℝ)
    (type_intensities : List (String × ℝ)) : SpatialAllocator × (Fin n → ℝ) :=
  (A, A.allocate_with_building_types fraction_columns building_type_fractions type_intensities)

/-- The columns of the spatial proxy DataFrame read by
`allocate_national_stock` and `calculate_regional_characteristics`. -/
structure ProxyData (n : ℕ) where
  state : Fin n → String
  state_abbrev : Fin n → String
  population : Fin n → ℝ
  gdp : Fin n → ℝ
  floor_area : Fin n → ℝ
  urbanization : Fin n → ℝ
  avg_construction_year : Fin n → ℝ

/-- The proxy DataFrame after `calculate_regional_characteristics` added
its derived columns. -/
structure EnhancedProxyData (n : ℕ) extends ProxyData n where
  density_score : Fin n → ℝ
  gdp_per_capita : Fin n → ℝ
  avg_building_age : Fin n → ℝ
  floor_area_per_capita : Fin n → ℝ

/-- Embedding of `calculate_regional_characteristics(proxy_data)`: works on a copy of
the frame and adds `density_score`, `gdp_per_capita`,
`avg_building_age` (relative to `current_year = 2024`) and
`floor_area_per_capita`. -/
def calculate_regional_characteristics {n : ℕ} (proxy_data : ProxyData n) :
    EnhancedProxyData n :=
  { proxy_data with
    density_score := fun i => proxy_data.urbanization i * proxy_data.population i
    gdp_per_capita := fun i => proxy_data.gdp i / proxy_data.population i
    avg_building_age := fun i => 2024 - proxy_data.avg_construction_year i
    floor_area_per_capita := fun i => proxy_data.floor_area i / proxy_data.population i }

/-- The dispatch of `allocate_national_stock` for one `(building_type,
national_stock)` entry: `some` series when a `{building_type}_stock`
column is assigned, `none` when the branch assigns nothing (unknown
method, or `'hybrid'` with an unknown building type); hybrid branches may
propagate an `allocate_hybrid` exception. -/
def stockColumnFor {n : ℕ} (method : String) (pd : EnhancedProxyData n)
    (building_type : String) (national_stock : ℝ) :
    Except HybridError (Option (Fin n → ℝ)) :=
  let allocator : SpatialAllocator := ⟨national_stock, List.ofFn pd.state⟩
  if method = "population" then
    Except.ok (some (allocator.allocate_by_population pd.population))
  else if method = "gdp" then
    Except.ok (some (allocator.allocate_by_gdp pd.gdp))
  else if method = "floor_area" then
    Except.ok (some (allocator.allocate_by_floor_area pd.floor_area))
  else if method = "hybrid" then
    if building_type = "residential" then
      (allocator.allocate_hybrid [("population", 0.6), ("floor_area", 0.4)]
        [("population", pd.population), ("floor_area", pd.floor_area)]).map some
    else if building_type = "commercial" then
      let urban_score : Fin n → ℝ := fun i => pd.urbanization i * pd.population i
      (allocator.allocate_hybrid [("gdp", 0.7), ("urban", 0.3)]
        [("gdp", pd.gdp), ("urban", urban_score)]).map some
    else if building_type = "institutional" then
      Except.ok (some (allocator.allocate_by_population pd.population))
    else if building_type = "industrial" then
      Except.ok (some (allocator.allocate_by_gdp pd.gdp))
    else Except.ok none
  else Except.ok none

/-- The `results` DataFrame built by `allocate_national_stock`. -/
structure SpatialResults (n : ℕ) where
  state : Fin n → String
  state_abbrev : Fin n → String
  stock_columns : List (String × (Fin n → ℝ))
  total_stock : Fin n → ℝ
  population : Fin n → ℝ
  gdp : Fin n → ℝ
  floor_area : Fin n → ℝ
  stock_per_capita : Fin n → ℝ

/-- Embedding of `allocate_national_stock(national_stocks, proxy_data, method)`:
copies the identifier columns, derives regional characteristics on a
copy, allocates one `{building_type}_stock` column per non-`'total'`
entry of `national_stocks`, then adds the stock total, the reference
proxy columns and `stock_per_capita`. -/
def allocate_national_stock {n : ℕ} (national_stocks : List (String × ℝ))
    (proxy_data : ProxyData n) (method : String) :
    Except HybridError (SpatialResults n) := do
  let pd := calculate_regional_characteristics proxy_data
  let cols ← (national_stocks.filter (fun e => e.1 ≠ "total")).foldlM
    (fun (acc : List (String × (Fin n → ℝ))) e => do
      match ← stockColumnFor method pd e.1 e.2 with
      | some col => pure (acc ++ [(e.1 ++ "_stock", col)])
      | none => pure acc) []
  let total_stock : Fin n → ℝ := fun i => (cols.map (fun c => c.2 i)).sum
  pure { state := proxy_data.state
         state_abbrev := proxy_data.state_abbrev
         stock_columns := cols
         total_stock := total_stock
         population := pd.population
         gdp := pd.gdp
         floor_area := pd.floor_area
         stock_per_capita := fun i => total_stock i / pd.population i }

end

section ListHelpers

/-- An accumulate-if loop equals the initial value plus the sum of the
addend over the rows passing the test. -/
lemma foldl_filter_sum {α : Type} (p : α → Prop) [DecidablePred p] (f : α → ℝ) :
    ∀ (l : List α) (init : ℝ),
      l.foldl (fun acc r => if p r then acc + f r else acc) init
        = init + ((l.filter (fun r => p r)).map f).sum := by
  intro l
  induction l with
  | nil => intro init; simp
  | cons a l ih =>
    intro init
    by_cases h : p a
    · simp [List.foldl_cons, List.filter_cons, h, ih, add_assoc]
    · simp [List.foldl_cons, List.filter_cons, h, ih]

/-- Running `find?` by first component on a list of pairs `(t, g t)` built from a
function of the key: a hit returns the pair rebuilt at the key. -/
lemma find?_pair_map {β : Type} (g : ℤ → β) (l : List ℤ) (y : ℤ) (hy : y ∈ l) :
    ((l.map (fun t => (t, g t))).find? (fun q => q.1 = y)) = some (y, g y) := by
  induction l with
  | nil => cases hy
  | cons a l ih =>
    by_cases h : a = y
    · subst h
      exact List.find?_cons_of_pos _ (by simp)
    · rcases List.mem_cons.mp hy with h1 | h1
      · exact absurd h1.symm h
      · rw [List.map_cons, List.find?_cons_of_neg _ (by simp [h]), ih h1]

/-- Running `find?` by a key with no duplicate keys finds the given member. -/
lemma find?_key_nodup {α : Type} (key : α → ℤ) :
    ∀ (l : List α), (l.map key).Nodup → ∀ a ∈ l,
      l.find? (fun x => key x = key a) = some a := by
  intro l
  induction l with
  | nil => intro _ a ha; cases ha
  | cons c l ih =>
    intro hnd a ha
    have hnd' : (key c :: l.map key).Nodup := by simpa using hnd
    rcases List.mem_cons.mp ha with h | h
    · subst h
      exact List.find?_cons_of_pos _ (by simp)
    · have hne : key c ≠ key a := by
        intro hEq
        exact (List.nodup_cons.mp hnd').1 (List.mem_map.mpr ⟨a, h, hEq.symm⟩)
      rw [List.find?_cons_of_neg _ (by simp [hne]), ih (List.nodup_cons.mp hnd').2 a h]

lemma mem_rangeInt {lo hi y : ℤ} : y ∈ rangeInt lo hi ↔ lo ≤ y ∧ y ≤ hi := by
  simp only [rangeInt, List.mem_map, List.mem_range]
  constructor
  · rintro ⟨i, hlt, rfl⟩
    omega
  · rintro ⟨h1, h2⟩
    exact ⟨(y - lo).toNat, by omega, by omega⟩

lemma rangeInt_nodup (lo hi : ℤ) : (rangeInt lo hi).Nodup := by
  rw [rangeInt]
  exact List.Nodup.map (fun a b h => by omega) (List.nodup_range _)

/-- The `year_built` index of the survival matrix is exactly
`range(start_year, current_year + 1)`. -/
lemma survival_matrix_index (current_year start_year : ℤ)
    (lifetimes : BType → LifeParams) :
    (calculate_survival_matrix current_year start_year lifetimes).map Prod.fst
      = rangeInt start_year current_year := by
  rw [calculate_survival_matrix, List.map_map]
  exact List.map_id _

/-- Looking up the survival matrix at an in-range `year_built` returns
the survival probability at age `current_year - year_built`. -/
lemma matLookup_calculate (current_year start_year y : ℤ)
    (lifetimes : BType → LifeParams) (b : BType)
    (h1 : start_year ≤ y) (h2 : y ≤ current_year) :
    matLookup (calculate_survival_matrix current_year start_year lifetimes) y b
      = survival_function ((current_year - y : ℤ) : ℝ) (lifetimes b) := by
  rw [matLookup, calculate_survival_matrix,
    find?_pair_map _ _ _ (mem_rangeInt.mpr ⟨h1, h2⟩)]
  rfl

/-- With distinct years, the `.values[0]` lookup of a member row's year
returns that row's inflow. -/
lemma lookupInflow_of_mem (inflows : List InflowRow)
    (hnd : (inflows.map InflowRow.year).Nodup) (r : InflowRow)
    (hr : r ∈ inflows) (b : BType) :
    lookupInflow inflows r.year b = r.inflow b := by
  rw [lookupInflow, find?_key_nodup InflowRow.year inflows hnd r hr]
  rfl

end ListHelpers

section SurvivalLemmas

lemma normCdf_nonneg (x loc scale : ℝ) : 0 ≤ normCdf x loc scale :=
  ProbabilityTheory.cdf_nonneg _ x

lemma normCdf_le_one (x loc scale : ℝ) : normCdf x loc scale ≤ 1 :=
  ProbabilityTheory.cdf_le_one _ x

lemma normCdf_mono (loc scale : ℝ) : Monotone (fun x => normCdf x loc scale) :=
  ProbabilityTheory.monotone_cdf _

/-- The quantity `1 - norm.cdf(x)` is the probability that a normally distributed
lifetime exceeds `x`. -/
lemma one_sub_normCdf (x loc scale : ℝ) :
    1 - normCdf x loc scale
      = ((ProbabilityTheory.gaussianReal loc ((scale ^ 2).toNNReal)) (Set.Ioi x)).toReal := by
  have hmeas : (ProbabilityTheory.gaussianReal loc ((scale ^ 2).toNNReal)) (Set.Ioi x)
      = 1 - (ProbabilityTheory.gaussianReal loc ((scale ^ 2).toNNReal)) (Set.Iic x) := by
    rw [← Set.compl_Iic]
    exact MeasureTheory.prob_compl_eq_one_sub measurableSet_Iic
  rw [hmeas, ENNReal.toReal_sub_of_le MeasureTheory.prob_le_one ENNReal.one_ne_top]
  rw [ENNReal.one_toReal, normCdf, ProbabilityTheory.cdf_eq_toReal]

/-- Survival probabilities never increase with age. -/
lemma survival_function_le_of_le (q : LifeParams) {x1 x2 : ℝ} (hx : x1 ≤ x2) :
    survival_function x2 q ≤ survival_function x1 q := by
  refine max_le_max le_rfl ?_
  exact sub_le_sub_left (normCdf_mono q.mean q.std hx) 1

end SurvivalLemmas

section Claims

/-- C3: for every age `a` and lifetime parameters with `std > 0`,
`survival_function(a, params)` equals `max(0, 1 - NormalCDF(a; m, s))`,
which is the probability that a normally distributed lifetime exceeds
`a`, clamped below at zero (the clamp never binds, so the value is the
tail probability itself). -/
theorem survival_function_is_clamped_tail_prob (age : ℝ) (p : LifeParams)
    (h : 0 < p.std) :
    survival_function age p
      = max 0 (1 - normCdf age p.mean p.std) ∧
    1 - normCdf age p.mean p.std
      = ((ProbabilityTheory.gaussianReal p.mean ((p.std ^ 2).toNNReal))
          (Set.Ioi age)).toReal ∧
    survival_function age p
      = ((ProbabilityTheory.gaussianReal p.mean ((p.std ^ 2).toNNReal))
          (Set.Ioi age)).toReal := by
  have h1 := one_sub_normCdf age p.mean p.std
  refine ⟨rfl, h1, ?_⟩
  rw [survival_function, h1]
  exact max_eq_right ENNReal.toReal_nonneg

/-- Witness for C3 at age 50 and parameters mean 70, std 1. -/
theorem survival_function_is_clamped_tail_prob_witness :
    (0 : ℝ) < 1 ∧
    (survival_function 50 ⟨70, 1⟩
        = max 0 (1 - normCdf 50 70 1) ∧
      1 - normCdf 50 70 1
        = ((ProbabilityTheory.gaussianReal 70 (((1 : ℝ) ^ 2).toNNReal))
            (Set.Ioi 50)).toReal ∧
      survival_function 50 ⟨70, 1⟩
        = ((ProbabilityTheory.gaussianReal 70 (((1 : ℝ) ^ 2).toNNReal))
            (Set.Ioi 50)).toReal) :=
  ⟨one_pos, survival_function_is_clamped_tail_prob 50 ⟨70, 1⟩ one_pos⟩

/-- C8: for every age and lifetime parameters with `std > 0`, the value
of `survival_function` lies in the closed interval `[0, 1]`. -/
theorem survival_function_mem_unit_interval (age : ℝ) (p : LifeParams)
    (h : 0 < p.std) :
    0 ≤ survival_function age p ∧ survival_function age p ≤ 1 := by
  refine ⟨le_max_left _ _, ?_⟩
  rw [survival_function]
  refine max_le zero_le_one ?_
  have := normCdf_nonneg age p.mean p.std
  linarith

/-- Witness for C8 at age 30 and parameters mean 60, std 1. -/
theorem survival_function_mem_unit_interval_witness :
    (0 : ℝ) < 1 ∧
    (0 ≤ survival_function 30 ⟨60, 1⟩ ∧ survival_function 30 ⟨60, 1⟩ ≤ 1) :=
  ⟨one_pos, survival_function_mem_unit_interval 30 ⟨60, 1⟩ one_pos⟩

/-- C9: `survival_function` is monotonically non-increasing in age, and
consequently, in any survival matrix produced by
`calculate_survival_matrix`, a cohort built earlier (hence older) never
has a higher survival probability than one built later. -/
theorem survival_function_antitone_in_age (p : LifeParams) (h : 0 < p.std)
    (a1 a2 : ℝ) (h12 : a1 ≤ a2)
    (current_year start_year y1 y2 : ℤ) (L : BType → LifeParams) (b : BType)
    (hy1 : start_year ≤ y1) (hy12 : y1 ≤ y2) (hy2 : y2 ≤ current_year) :
    survival_function a2 p ≤ survival_function a1 p ∧
    matLookup (calculate_survival_matrix current_year start_year L) y1 b
      ≤ matLookup (calculate_survival_matrix current_year start_year L) y2 b := by
  refine ⟨survival_function_le_of_le p h12, ?_⟩
  rw [matLookup_calculate current_year start_year y1 L b hy1 (le_trans hy12 hy2),
    matLookup_calculate current_year start_year y2 L b (le_trans hy1 hy12) hy2]
  exact survival_function_le_of_le (L b)
    (by exact_mod_cast sub_le_sub_left hy12 current_year)

/-- Witness for C9: ages 0 ≤ 1, and matrix years 1950 ≤ 1960 inside a
1950–2024 survival matrix. -/
theorem survival_function_antitone_in_age_witness :
    ((0 : ℝ) < 1 ∧ (0 : ℝ) ≤ 1 ∧ (1950 : ℤ) ≤ 1950 ∧ (1950 : ℤ) ≤ 1960 ∧
      (1960 : ℤ) ≤ 2024) ∧
    (survival_function 1 ⟨70, 1⟩ ≤ survival_function 0 ⟨70, 1⟩ ∧
      matLookup (calculate_survival_matrix 2024 1950 LIFETIMES) 1950
          BType.residential
        ≤ matLookup (calculate_survival_matrix 2024 1950 LIFETIMES) 1960
            BType.residential) :=
  ⟨⟨one_pos, zero_le_one, le_refl _, by decide, by decide⟩,
    survival_function_antitone_in_age ⟨70, 1⟩ one_pos 0 1 zero_le_one
      2024 1950 1950 1960 LIFETIMES BType.residential (le_refl _) (by decide)
      (by decide)⟩

/-- C1: for every analysis year `y` in `[start_year, end_year]` and every
building type, the stock value produced by `calculate_stock_timeseries`
(whose inflow years are distinct, as for a year-keyed time series) is the
sum over the inflow rows with `built_year <= y` of the row's inflow times
`survival_function(y - built_year, LIFETIMES[btype])`; rows with
`built_year > y` contribute nothing. -/
theorem stock_timeseries_is_survival_convolution (inflows : List InflowRow)
    (sm : List (ℤ × (BType → ℝ))) (start_year end_year y : ℤ) (b : BType)
    (hnd : (inflows.map InflowRow.year).Nodup)
    (hs : start_year ≤ y) (he : y ≤ end_year) :
    ∃ row ∈ calculate_stock_timeseries inflows sm start_year end_year,
      row.year = y ∧
      row.stock b
        = ((inflows.filter (fun r => r.year ≤ y)).map
            (fun r => r.inflow b
              * survival_function ((y - r.year : ℤ) : ℝ) (LIFETIMES b))).sum := by
  refine ⟨yearStocks inflows y,
    List.mem_map_of_mem _ (mem_rangeInt.mpr ⟨hs, he⟩), rfl, ?_⟩
  show stockInYear inflows y b = _
  rw [stockInYear,
    foldl_filter_sum (fun r => r.year ≤ y)
      (fun r => lookupInflow inflows r.year b
        * survival_function ((y - r.year : ℤ) : ℝ) (LIFETIMES b)) inflows 0,
    zero_add]
  apply congrArg List.sum
  apply List.map_congr_left
  intro r hr
  rw [lookupInflow_of_mem inflows hnd r (List.mem_of_mem_filter hr) b]

/-- Witness for C1: a one-row inflow table for year 1950, analysed over
1950–1952 at year 1951. -/
theorem stock_timeseries_is_survival_convolution_witness :
    (([⟨1950, fun _ => 2⟩] : List InflowRow).map InflowRow.year).Nodup ∧
    (1950 : ℤ) ≤ 1951 ∧ (1951 : ℤ) ≤ 1952 ∧
    ∃ row ∈ calculate_stock_timeseries [⟨1950, fun _ => 2⟩] [] 1950 1952,
      row.year = 1951 ∧
      row.stock BType.residential
        = ((([⟨1950, fun _ => 2⟩] : List InflowRow).filter
              (fun r => r.year ≤ 1951)).map
            (fun r => r.inflow BType.residential
              * survival_function ((1951 - r.year : ℤ) : ℝ)
                  (LIFETIMES BType.residential))).sum :=
  ⟨List.nodup_singleton _, by decide, by decide,
    stock_timeseries_is_survival_convolution [⟨1950, fun _ => 2⟩] [] 1950 1952
      1951 BType.residential (List.nodup_singleton _) (by decide) (by decide)⟩

/-- C2: when the inflow years are exactly
`range(start_year, current_year + 1)` and the survival matrix is
`calculate_survival_matrix(current_year, start_year, LIFETIMES)`, the
per-building-type stock returned by `calculate_stock` equals the stock of
the `calculate_stock_timeseries` row for `year == current_year`: the
precomputed-matrix lookup and the per-year recomputation are the same
accumulation. -/
theorem calculate_stock_refines_timeseries (inflows : List InflowRow)
    (start_year current_year : ℤ) (b : BType)
    (hyears : inflows.map InflowRow.year = rangeInt start_year current_year)
    (hsc : start_year ≤ current_year) :
    ∃ row ∈ calculate_stock_timeseries inflows
        (calculate_survival_matrix current_year start_year LIFETIMES)
        start_year current_year,
      row.year = current_year ∧
      calculate_stock inflows
          (calculate_survival_matrix current_year start_year LIFETIMES)
          current_year b
        = row.stock b := by
  have hnd : (inflows.map InflowRow.year).Nodup := by
    rw [hyears]; exact rangeInt_nodup start_year current_year
  have hmem : ∀ r ∈ inflows, r.year ∈ rangeInt start_year current_year := by
    intro r hr
    rw [← hyears]
    exact List.mem_map_of_mem _ hr
  refine ⟨yearStocks inflows current_year,
    List.mem_map_of_mem _ (mem_rangeInt.mpr ⟨hsc, le_refl _⟩), rfl, ?_⟩
  show _ = stockInYear inflows current_year b
  rw [calculate_stock, stockInYear, survival_matrix_index,
    foldl_filter_sum (fun r => r.year ∈ rangeInt start_year current_year)
      (fun r => lookupInflow inflows r.year b
        * matLookup (calculate_survival_matrix current_year start_year LIFETIMES)
            r.year b) inflows 0,
    foldl_filter_sum (fun r => r.year ≤ current_year)
      (fun r => lookupInflow inflows r.year b
        * survival_function ((current_year - r.year : ℤ) : ℝ) (LIFETIMES b))
      inflows 0,
    zero_add, zero_add,
    List.filter_eq_self.mpr (fun r hr => by simp [hmem r hr]),
    List.filter_eq_self.mpr
      (fun r hr => by simp [(mem_rangeInt.mp (hmem r hr)).2])]
  apply congrArg List.sum
  apply List.map_congr_left
  intro r hr
  rw [matLookup_calculate current_year start_year r.year LIFETIMES b
    (mem_rangeInt.mp (hmem r hr)).1 (mem_rangeInt.mp (hmem r hr)).2]

/-- Witness for C2: a single 1950 inflow row with `start_year =
current_year = 1950`. -/
theorem calculate_stock_refines_timeseries_witness :
    ([⟨1950, fun _ => 2⟩] : List InflowRow).map InflowRow.year
        = rangeInt 1950 1950 ∧
    (1950 : ℤ) ≤ 1950 ∧
    ∃ row ∈ calculate_stock_timeseries [⟨1950, fun _ => 2⟩]
        (calculate_survival_matrix 1950 1950 LIFETIMES) 1950 1950,
      row.year = 1950 ∧
      calculate_stock [⟨1950, fun _ => 2⟩]
          (calculate_survival_matrix 1950 1950 LIFETIMES) 1950 BType.commercial
        = row.stock BType.commercial :=
  ⟨by decide, by decide,
    calculate_stock_refines_timeseries [⟨1950, fun _ => 2⟩] 1950 1950
      BType.commercial (by decide) (by decide)⟩

/-- C6: for every year present in both input tables (witnessed by a
cement row and a spending row with that year, years being distinct in the
spending table), `calculate_concrete_inflows` produces a row whose
per-building-type inflow is
`production_mt * CONCRETE_TO_CEMENT_RATIO * BUILDING_FRACTION * fraction`,
and whenever the four spending fractions sum to 1, the four per-type
inflows sum to the `concrete_to_buildings_mt` total of that row. -/
theorem concrete_inflows_formula (cement_data : List CementRow)
    (spending_data : List SpendRow) (c : CementRow) (sp : SpendRow)
    (hc : c ∈ cement_data) (hsp : sp ∈ spending_data) (hy : sp.year = c.year)
    (hnd : (spending_data.map SpendRow.year).Nodup) :
    ∃ row ∈ calculate_concrete_inflows cement_data spending_data,
      row.year = c.year ∧
      (∀ b, row.inflow b
        = c.production_mt * CONCRETE_TO_CEMENT_RATIO * BUILDING_FRACTION
            * sp.frac b) ∧
      ((BTypes.map sp.frac).sum = 1 →
        (BTypes.map row.inflow).sum = row.concrete_to_buildings_mt) := by
  have hfind : spending_data.find? (fun s => s.year = c.year) = some sp := by
    rw [← hy]
    exact find?_key_nodup SpendRow.year spending_data hnd sp hsp
  refine ⟨_, List.mem_filterMap.mpr ⟨c, hc, by rw [hfind]; rfl⟩, rfl,
    fun b => rfl, ?_⟩
  intro hsum
  show (BTypes.map
      (fun b => c.production_mt * CONCRETE_TO_CEMENT_RATIO * BUILDING_FRACTION
        * sp.frac b)).sum
    = c.production_mt * CONCRETE_TO_CEMENT_RATIO * BUILDING_FRACTION
  calc (BTypes.map
      (fun b => c.production_mt * CONCRETE_TO_CEMENT_RATIO * BUILDING_FRACTION
        * sp.frac b)).sum
      = c.production_mt * CONCRETE_TO_CEMENT_RATIO * BUILDING_FRACTION
          * (BTypes.map sp.frac).sum := by
        simp only [BTypes, List.map_cons, List.map_nil, List.sum_cons,
          List.sum_nil]
        ring
    _ = c.production_mt * CONCRETE_TO_CEMENT_RATIO * BUILDING_FRACTION := by
        rw [hsum, mul_one]

/-- Witness for C6: one cement row and one spending row for 1950, with
all four fractions 1/4. -/
theorem concrete_inflows_formula_witness :
    (⟨1950, 40⟩ : CementRow) ∈ [(⟨1950, 40⟩ : CementRow)] ∧
    (⟨1950, fun _ => 1/4⟩ : SpendRow) ∈ [(⟨1950, fun _ => 1/4⟩ : SpendRow)] ∧
    (⟨1950, fun _ => 1/4⟩ : SpendRow).year = (⟨1950, 40⟩ : CementRow).year ∧
    (([⟨1950, fun _ => 1/4⟩] : List SpendRow).map SpendRow.year).Nodup ∧
    (BTypes.map (⟨1950, fun _ => 1/4⟩ : SpendRow).frac).sum = 1 ∧
    ∃ row ∈ calculate_concrete_inflows [⟨1950, 40⟩] [⟨1950, fun _ => 1/4⟩],
      row.year = (1950 : ℤ) ∧
      (∀ b, row.inflow b
        = 40 * CONCRETE_TO_CEMENT_RATIO * BUILDING_FRACTION * (1/4)) ∧
      (BTypes.map row.inflow).sum = row.concrete_to_buildings_mt := by
  have hsum : (BTypes.map (⟨1950, fun _ => 1/4⟩ : SpendRow).frac).sum = (1 : ℝ) := by
    norm_num [BTypes]
  obtain ⟨row, hrow, hyear, hinfl, himp⟩ :=
    concrete_inflows_formula [⟨1950, 40⟩] [⟨1950, fun _ => 1/4⟩]
      ⟨1950, 40⟩ ⟨1950, fun _ => 1/4⟩ (List.mem_singleton.mpr rfl)
      (List.mem_singleton.mpr rfl) rfl (List.nodup_singleton _)
  exact ⟨List.mem_singleton.mpr rfl, List.mem_singleton.mpr rfl, rfl,
    List.nodup_singleton _, hsum,
    row, hrow, hyear, fun b => hinfl b, himp hsum⟩

/-- C4: each single-proxy allocation method distributes the national
total proportionally to the proxy and, when the proxy total is nonzero,
conserves it exactly: every unit receives `national_stock` times its
share, and the allocations sum to `national_stock`.  The four methods
are the same formula applied to different proxy series. -/
theorem single_proxy_allocation_conserves_total {n : ℕ} (A : SpatialAllocator)
    (v : Fin n → ℝ) (hv : (∑ j, v j) ≠ 0) :
    (∀ i, A.allocate_by_population v i
      = A.national_stock * (v i / ∑ j, v j)) ∧
    (∑ i, A.allocate_by_population v i) = A.national_stock ∧
    A.allocate_by_gdp v = A.allocate_by_population v ∧
    A.allocate_by_floor_area v = A.allocate_by_population v ∧
    A.allocate_by_nighttime_lights v = A.allocate_by_population v := by
  refine ⟨fun i => rfl, ?_, rfl, rfl, rfl⟩
  show (∑ i, A.national_stock * (v i / ∑ j, v j)) = A.national_stock
  rw [← Finset.mul_sum, ← Finset.sum_div, div_self hv, mul_one]

/-- Witness for C4: two units with proxy values 3 and 1 and national
stock 8. -/
theorem single_proxy_allocation_conserves_total_witness :
    (∑ j : Fin 2, (![3, 1] : Fin 2 → ℝ) j) ≠ 0 ∧
    ((∀ i, (SpatialAllocator.mk 8 []).allocate_by_population ![3, 1] i
        = 8 * ((![3, 1] : Fin 2 → ℝ) i / ∑ j, (![3, 1] : Fin 2 → ℝ) j)) ∧
      (∑ i, (SpatialAllocator.mk 8 []).allocate_by_population ![3, 1] i) = 8 ∧
      (SpatialAllocator.mk 8 []).allocate_by_gdp ![3, 1]
        = (SpatialAllocator.mk 8 []).allocate_by_population ![3, 1] ∧
      (SpatialAllocator.mk 8 []).allocate_by_floor_area ![3, 1]
        = (SpatialAllocator.mk 8 []).allocate_by_population ![3, 1] ∧
      (SpatialAllocator.mk 8 []).allocate_by_nighttime_lights ![3, 1]
        = (SpatialAllocator.mk 8 []).allocate_by_population ![3, 1]) :=
  ⟨by norm_num [Fin.sum_univ_two],
    single_proxy_allocation_conserves_total (SpatialAllocator.mk 8 []) ![3, 1]
      (by norm_num [Fin.sum_univ_two])⟩

/-- With passing weight assertion and empty proxy data, `allocate_hybrid`
raises the IndexError of `list(proxy_data.keys())[0]`. -/
lemma allocate_hybrid_nil_eq {n : ℕ} (A : SpatialAllocator)
    (weights : List (String × ℝ))
    (hcond : |(weights.map Prod.snd).sum - 1.0| < 0.001) :
    A.allocate_hybrid weights ([] : List (String × (Fin n → ℝ)))
      = Except.error HybridError.indexError := by
  rw [SpatialAllocator.allocate_hybrid.eq_def, if_pos hcond]

/-- With passing weight assertion and nonempty proxy data,
`allocate_hybrid` returns the accumulated weighted allocation. -/
lemma allocate_hybrid_cons_eq {n : ℕ} (A : SpatialAllocator)
    (weights : List (String × ℝ)) (a : String × (Fin n → ℝ))
    (l : List (String × (Fin n → ℝ)))
    (hcond : |(weights.map Prod.snd).sum - 1.0| < 0.001) :
    A.allocate_hybrid weights (a :: l)
      = Except.ok (fun i =>
          (weights.map (fun w =>
            (((a :: l).find? (fun p => p.1 = w.1)).map
              (fun p => w.2 * A.national_stock * (p.2 i / ∑ j, p.2 j))).getD
              0)).sum) := by
  rw [SpatialAllocator.allocate_hybrid.eq_def, if_pos hcond]

/-- C5 counterexample: the claim says `allocate_hybrid` returns normally
whenever the weights sum to 1 within the 0.001 tolerance, but a call with
good weights and an empty proxy-data dictionary raises an IndexError at
`list(proxy_data.keys())[0]` instead of returning. -/
theorem allocate_hybrid_good_weights_still_fails :
    |([("population", (1 : ℝ))].map Prod.snd).sum - 1.0| < 0.001 ∧
    SpatialAllocator.allocate_hybrid ⟨5, []⟩ [("population", (1 : ℝ))]
        ([] : List (String × (Fin 1 → ℝ)))
      = Except.error HybridError.indexError :=
  ⟨by norm_num, allocate_hybrid_nil_eq ⟨5, []⟩ _ (by norm_num)⟩

/-- C5 (amended): `allocate_hybrid` raises the assertion error exactly
when the weights do not sum to 1.0 within the 0.001 tolerance; when they
do and at least one proxy series is supplied, it returns normally with
the weighted sum of the per-proxy proportional allocations (weights on
proxies absent from the supplied data contributing nothing). -/
theorem allocate_hybrid_assertion_spec {n : ℕ} (A : SpatialAllocator)
    (weights : List (String × ℝ)) (proxy_data : List (String × (Fin n → ℝ))) :
    (A.allocate_hybrid weights proxy_data
        = Except.error HybridError.assertionError
      ↔ ¬ |(weights.map Prod.snd).sum - 1.0| < 0.001) ∧
    (|(weights.map Prod.snd).sum - 1.0| < 0.001 → proxy_data ≠ [] →
      A.allocate_hybrid weights proxy_data
        = Except.ok (fun i =>
            (weights.map (fun w =>
              ((proxy_data.find? (fun p => p.1 = w.1)).map
                (fun p => w.2 * A.allocate_by_population p.2 i)).getD
                0)).sum)) := by
  constructor
  · constructor
    · intro hres hcond
      cases proxy_data with
      | nil =>
        rw [allocate_hybrid_nil_eq A weights hcond] at hres
        simp at hres
      | cons a l =>
        rw [allocate_hybrid_cons_eq A weights a l hcond] at hres
        simp at hres
    · intro hcond
      rw [SpatialAllocator.allocate_hybrid.eq_def, if_neg hcond]
  · intro hcond hne
    cases proxy_data with
    | nil => exact absurd rfl hne
    | cons a l =>
      rw [allocate_hybrid_cons_eq A weights a l hcond]
      apply congrArg
      funext i
      apply congrArg List.sum
      apply List.map_congr_left
      intro w hw
      cases hfind : (a :: l).find? (fun p => p.1 = w.1) with
      | none => rfl
      | some p => exact mul_assoc w.2 A.national_stock _

/-- Witness for C5 (amended): good weights and one supplied proxy. -/
theorem allocate_hybrid_assertion_spec_witness :
    |([("population", (1 : ℝ))].map Prod.snd).sum - 1.0| < 0.001 ∧
    ([("population", fun _ : Fin 1 => (2 : ℝ))]
      : List (String × (Fin 1 → ℝ))) ≠ [] ∧
    SpatialAllocator.allocate_hybrid ⟨5, []⟩ [("population", (1 : ℝ))]
        [("population", fun _ : Fin 1 => (2 : ℝ))]
      = Except.ok (fun i =>
          ([("population", (1 : ℝ))].map (fun w =>
            ((([("population", fun _ : Fin 1 => (2 : ℝ))]
                : List (String × (Fin 1 → ℝ))).find? (fun p => p.1 = w.1)).map
              (fun p =>
                w.2 * (SpatialAllocator.mk 5 []).allocate_by_population p.2 i)).getD
              0)).sum) :=
  ⟨by norm_num, by simp,
    (allocate_hybrid_assertion_spec ⟨5, []⟩ [("population", (1 : ℝ))]
      [("population", fun _ : Fin 1 => (2 : ℝ))]).2 (by norm_num) (by simp)⟩

/-- C7: the allocation pipeline is deterministic and stateless: runs of
`allocate_national_stock` on equal inputs return equal results, and, in
the state-passing reading of the `SpatialAllocator` methods, every
allocation method returns the allocator state it was given — no method
mutates `national_stock` or `spatial_units` between calls. -/
theorem pipeline_stateless_deterministic :
    (∀ (n : ℕ) (ns1 ns2 : List (String × ℝ)) (pd1 pd2 : ProxyData n)
        (m1 m2 : String), ns1 = ns2 → pd1 = pd2 → m1 = m2 →
      allocate_national_stock ns1 pd1 m1 = allocate_national_stock ns2 pd2 m2) ∧
    (∀ (n : ℕ) (A : SpatialAllocator) (v : Fin n → ℝ),
      (A.allocate_by_population_run v).1 = A ∧
      (A.allocate_by_gdp_run v).1 = A ∧
      (A.allocate_by_floor_area_run v).1 = A ∧
      (A.allocate_by_nighttime_lights_run v).1 = A) ∧
    (∀ (n : ℕ) (A : SpatialAllocator) (ts : List (Fin n → ℝ)),
      (A.allocate_by_construction_spending_run ts).1 = A) ∧
    (∀ (n : ℕ) (A : SpatialAllocator) (w : List (String × ℝ))
        (p : List (String × (Fin n → ℝ))),
      (A.allocate_hybrid_run w p).1 = A) ∧
    (∀ (n : ℕ) (A : SpatialAllocator) (cols : List String)
        (fr : String → Fin n → ℝ) (ti : List (String × ℝ)),
      (A.allocate_with_building_types_run cols fr ti).1 = A) := by
  refine ⟨?_, fun n A v => ⟨rfl, rfl, rfl, rfl⟩, fun n A ts => rfl,
    fun n A w p => rfl, fun n A cols fr ti => rfl⟩
  rintro n ns1 ns2 pd1 pd2 m1 m2 rfl rfl rfl
  rfl

/-- Witness for C7: two identical runs on a one-state proxy table, and
state preservation of a population allocation. -/
theorem pipeline_stateless_deterministic_witness :
    allocate_national_stock [("residential", 3000)]
        (⟨fun _ => "California", fun _ => "CA", fun _ => 39, fun _ => 3900,
          fun _ => 8000, fun _ => 1, fun _ => 1975⟩ : ProxyData 1) "population"
      = allocate_national_stock [("residential", 3000)]
          (⟨fun _ => "California", fun _ => "CA", fun _ => 39, fun _ => 3900,
            fun _ => 8000, fun _ => 1, fun _ => 1975⟩ : ProxyData 1)
          "population" ∧
    ((SpatialAllocator.mk 5 ["California"]).allocate_by_population_run
        (fun _ : Fin 1 => 39)).1 = SpatialAllocator.mk 5 ["California"] :=
  ⟨pipeline_stateless_deterministic.1 1 _ _ _ _ _ _ rfl rfl rfl,
    (pipeline_stateless_deterministic.2.1 1 _ _).1⟩

/-- Exchanging a finite sum over units with a list sum over weights. -/
lemma sum_fin_list_sum {n : ℕ} {α : Type} (l : List α) (g : α → Fin n → ℝ) :
    (∑ i, (l.map (fun w => g w i)).sum) = (l.map (fun w => ∑ i, g w i)).sum := by
  induction l with
  | nil => simp
  | cons a l ih =>
    simp only [List.map_cons, List.sum_cons]
    rw [← ih, Finset.sum_add_distrib]

/-- The total allocated by the hybrid accumulation: weights whose proxy
is found contribute their weight times the national stock (each present
proxy having nonzero total), weights on absent proxies contribute
nothing. -/
lemma weighted_present_sum {n : ℕ} (N : ℝ)
    (proxy : List (String × (Fin n → ℝ)))
    (hp : ∀ p ∈ proxy, (∑ j, p.2 j) ≠ 0) :
    ∀ l : List (String × ℝ),
      (l.map (fun w => ∑ i,
          ((proxy.find? (fun p => p.1 = w.1)).map
            (fun p => w.2 * N * (p.2 i / ∑ j, p.2 j))).getD 0)).sum
        = N * ((l.filter
            (fun w => (proxy.find? (fun p => p.1 = w.1)).isSome)).map
            Prod.snd).sum := by
  intro l
  induction l with
  | nil => simp
  | cons a l ih =>
    rw [List.map_cons, List.sum_cons, ih, List.filter_cons]
    cases hfind : proxy.find? (fun p => p.1 = a.1) with
    | none => simp
    | some p =>
      have hS := hp p (List.mem_of_find?_eq_some hfind)
      have hhead : (∑ i, a.2 * N * (p.2 i / ∑ j, p.2 j)) = a.2 * N := by
        rw [← Finset.mul_sum, ← Finset.sum_div, div_self hS, mul_one]
      simp only [Option.map_some', Option.getD_some, hhead,
        Option.isSome_some, if_pos, List.map_cons, List.sum_cons]
      ring

/-- C10 counterexample: the claim asserts that with weights summing to
1.0 and a weighted proxy name missing from the data, the allocation total
`national_stock * (sum of present weights)` is strictly below
`national_stock`; with a zero weight on the missing proxy the total
equals `national_stock` exactly. -/
theorem hybrid_zero_missing_weight_not_strict :
    ∃ f, SpatialAllocator.allocate_hybrid ⟨5, []⟩
        [("population", (1 : ℝ)), ("gdp", 0)]
        [("population", fun _ : Fin 1 => (2 : ℝ))] = Except.ok f ∧
      ([("population", (1 : ℝ)), ("gdp", 0)].map Prod.snd).sum = 1 ∧
      (∑ i, f i) = 5 ∧ ¬ (∑ i, f i) < 5 := by
  have hp2 : ∀ p ∈ ([("population", fun _ : Fin 1 => (2 : ℝ))]
      : List (String × (Fin 1 → ℝ))), (∑ j, p.2 j) ≠ 0 := by
    intro p hp
    rw [List.mem_singleton] at hp
    subst hp
    norm_num [Fin.sum_univ_one]
  refine ⟨_, allocate_hybrid_cons_eq ⟨5, []⟩
    [("population", (1 : ℝ)), ("gdp", 0)] ("population", fun _ => (2 : ℝ)) []
    (by norm_num), by norm_num, ?_, ?_⟩
  all_goals
    rw [sum_fin_list_sum [("population", (1 : ℝ)), ("gdp", 0)]
        (fun w i =>
          ((([("population", fun _ : Fin 1 => (2 : ℝ))]
              : List (String × (Fin 1 → ℝ))).find? (fun p => p.1 = w.1)).map
            (fun p =>
              w.2 * (⟨5, []⟩ : SpatialAllocator).national_stock
                * (p.2 i / ∑ j, p.2 j))).getD 0),
      weighted_present_sum (⟨5, []⟩ : SpatialAllocator).national_stock
        [("population", fun _ : Fin 1 => (2 : ℝ))] hp2
        [("population", (1 : ℝ)), ("gdp", 0)],
      show ([("population", (1 : ℝ)), ("gdp", 0)].filter
          (fun w => (([("population", fun _ : Fin 1 => (2 : ℝ))]
              : List (String × (Fin 1 → ℝ))).find?
              (fun p => p.1 = w.1)).isSome))
        = [("population", (1 : ℝ))] from rfl]
    norm_num

/-- C10 (amended): for weights summing to 1.0 and a nonempty proxy-data
set whose supplied series have nonzero totals, `allocate_hybrid` raises
nothing and returns an allocation summing to `national_stock` times the
sum of only the weights whose proxy is present; when `national_stock` is
positive and the present weights sum to strictly less than 1 (some
missing weight is positive), the total is strictly less than
`national_stock`. -/
theorem allocate_hybrid_drops_missing_weights {n : ℕ} (A : SpatialAllocator)
    (weights : List (String × ℝ)) (proxy_data : List (String × (Fin n → ℝ)))
    (hw : (weights.map Prod.snd).sum = 1) (hne : proxy_data ≠ [])
    (hp : ∀ p ∈ proxy_data, (∑ j, p.2 j) ≠ 0) :
    ∃ f, A.allocate_hybrid weights proxy_data = Except.ok f ∧
      (∑ i, f i)
        = A.national_stock
          * ((weights.filter
              (fun w => (proxy_data.find? (fun p => p.1 = w.1)).isSome)).map
              Prod.snd).sum ∧
      (0 < A.national_stock →
        ((weights.filter
            (fun w => (proxy_data.find? (fun p => p.1 = w.1)).isSome)).map
            Prod.snd).sum < 1 →
        (∑ i, f i) < A.national_stock) := by
  have hcond : |(weights.map Prod.snd).sum - 1.0| < 0.001 := by
    rw [hw]; norm_num
  cases proxy_data with
  | nil => exact absurd rfl hne
  | cons a l =>
    have hsum :
        (∑ i, (weights.map (fun w =>
            (((a :: l).find? (fun p => p.1 = w.1)).map
              (fun p => w.2 * A.national_stock * (p.2 i / ∑ j, p.2 j))).getD
              0)).sum)
          = A.national_stock
            * ((weights.filter
                (fun w => ((a :: l).find? (fun p => p.1 = w.1)).isSome)).map
                Prod.snd).sum := by
      rw [sum_fin_list_sum weights
          (fun w i =>
            (((a :: l).find? (fun p => p.1 = w.1)).map
              (fun p => w.2 * A.national_stock * (p.2 i / ∑ j, p.2 j))).getD
              0),
        weighted_present_sum A.national_stock (a :: l) hp weights]
    refine ⟨_, allocate_hybrid_cons_eq A weights a l hcond, hsum, ?_⟩
    intro hN hlt
    rw [hsum]
    calc A.national_stock
        * ((weights.filter
            (fun w => ((a :: l).find? (fun p => p.1 = w.1)).isSome)).map
            Prod.snd).sum
        < A.national_stock * 1 := mul_lt_mul_of_pos_left hlt hN
      _ = A.national_stock := mul_one _

/-- Witness for C10 (amended): weights 0.6 on a present proxy and 0.4 on
a missing one; the allocation totals 3, strictly below the national
stock 5. -/
theorem allocate_hybrid_drops_missing_weights_witness :
    ([("population", (0.6 : ℝ)), ("gdp", 0.4)].map Prod.snd).sum = 1 ∧
    ([("population", fun _ : Fin 1 => (2 : ℝ))]
      : List (String × (Fin 1 → ℝ))) ≠ [] ∧
    (∀ p ∈ ([("population", fun _ : Fin 1 => (2 : ℝ))]
        : List (String × (Fin 1 → ℝ))), (∑ j, p.2 j) ≠ 0) ∧
    ∃ f, SpatialAllocator.allocate_hybrid ⟨5, []⟩
        [("population", (0.6 : ℝ)), ("gdp", 0.4)]
        [("population", fun _ : Fin 1 => (2 : ℝ))] = Except.ok f ∧
      (∑ i, f i)
        = 5 * (([("population", (0.6 : ℝ)), ("gdp", 0.4)].filter
            (fun w => (([("population", fun _ : Fin 1 => (2 : ℝ))]
                : List (String × (Fin 1 → ℝ))).find?
                (fun p => p.1 = w.1)).isSome)).map Prod.snd).sum ∧
      (0 < (5 : ℝ) →
        (([("population", (0.6 : ℝ)), ("gdp", 0.4)].filter
            (fun w => (([("population", fun _ : Fin 1 => (2 : ℝ))]
                : List (String × (Fin 1 → ℝ))).find?
                (fun p => p.1 = w.1)).isSome)).map Prod.snd).sum < 1 →
        (∑ i, f i) < 5) := by
  have hp : ∀ p ∈ ([("population", fun _ : Fin 1 => (2 : ℝ))]
      : List (String × (Fin 1 → ℝ))), (∑ j, p.2 j) ≠ 0 := by
    intro p hp
    rw [List.mem_singleton] at hp
    subst hp
    norm_num [Fin.sum_univ_one]
  exact ⟨by norm_num, by simp, hp,
    allocate_hybrid_drops_missing_weights ⟨5, []⟩
      [("population", (0.6 : ℝ)), ("gdp", 0.4)]
      [("population", fun _ : Fin 1 => (2 : ℝ))] (by norm_num) (by simp) hp⟩

end Claims
